import Mathlib

set_option maxRecDepth 100000

/-!
Verification of the GProxy request-handling pipeline (Apps Script proxy).

The definitions below are a shallow embedding of the proxy sources:
`proxy/Code.gs` (doPost), `proxy/Utils.gs` (base64url, constant-time compare,
safeJsonParse, response envelopes), `Auth.gs` (verifyJwt, checkIp, cidrMatch,
ipToInt), `Config.gs` (getConfig and defaults), `Logger.gs` (logRequest),
`SecurityFilter.gs` (isSecurityEmail, isSecurityThread, logSecurityIntercept),
`Gmail.gs` (handleGmail and its read paths), `Router.gs` (routeRequest,
validateParams, validatePositiveInt), and the generated init-window variant of
`Code.gs` produced by `generateInitCodeGs`.

Platform primitives (HMAC-SHA256, JSON.parse, RegExp, GmailApp lookups, the
clock, CacheService, LockService) are modelled as parameters of an `Env`
record; everything written in the repository itself (base64url codec on top of
the platform base64, splitting, comparisons, the dispatch and policy logic) is
translated concretely.  JavaScript exceptions are modelled with `Except`:
`.error msg` is a thrown exception carrying `msg`.
-/

namespace GProxy

/-- JavaScript/JSON values, as produced by `JSON.parse` and carried in request
bodies and token claims.  `nul` is JSON null. -/
inductive Jv where
  | str (s : String)
  | num (n : Int)
  | bool (b : Bool)
  | nul
  | obj (fields : List (String × Jv))
  | arr (elems : List Jv)
deriving Repr

/-- Property access `v.k` on a JS value: `none` models `undefined`. -/
def jvGet (v : Jv) (k : String) : Option Jv :=
  match v with
  | .obj fields => fields.lookup k
  | _ => none

/-- JavaScript truthiness of a value ("" , 0, false, null are falsy). -/
def jvTruthy (v : Jv) : Bool :=
  match v with
  | .str s => s ≠ ""
  | .num n => n ≠ 0
  | .bool b => b
  | .nul => false
  | .obj _ => true
  | .arr _ => true

/-- JavaScript `String(v)` coercion (arrays join their elements; objects print
as `[object Object]`). -/
def jvToString (v : Jv) : String :=
  match v with
  | .str s => s
  | .num n => toString n
  | .bool b => if b then "true" else "false"
  | .nul => "null"
  | .obj _ => "[object Object]"
  | .arr elems => String.intercalate "," (elems.map fun e =>
      match e with
      | .str s => s
      | .num n => toString n
      | .bool b => if b then "true" else "false"
      | _ => "")

/-- Character-list version of `startsWith`. -/
def startsWithChars : List Char → List Char → Bool
  | [], _ => true
  | _ :: _, [] => false
  | a :: as, b :: bs => a == b && startsWithChars as bs

/-- Character-list substring containment. -/
def containsChars (needle : List Char) : List Char → Bool
  | [] => needle.isEmpty
  | c :: rest => startsWithChars needle (c :: rest) || containsChars needle rest

/-- JS `haystack.indexOf(needle) !== -1`: substring containment. -/
def strContains (haystack needle : String) : Bool :=
  containsChars needle.data haystack.data

/-- JS `s.split(sep)` for a one-character separator, on character lists: the
result is never empty and keeps empty groups (`''.split` gives `['']`). -/
def splitChars (sep : Char) : List Char → List (List Char)
  | [] => [[]]
  | c :: rest =>
      match splitChars sep rest with
      | [] => [[]]
      | grp :: grps => if c = sep then [] :: grp :: grps else (c :: grp) :: grps

/-- JS `s.split(sep)` for a one-character separator. -/
def jsSplit (s : String) (sep : Char) : List String :=
  (splitChars sep s.data).map String.mk

/-- JS `s.trim()` (ASCII whitespace). -/
def jsTrim (s : String) : String :=
  let ws := fun c => c = ' ' ∨ c = '\t' ∨ c = '\n' ∨ c = '\r'
  String.mk (((s.data.dropWhile ws).reverse.dropWhile ws).reverse)

/-- JS `s.toLowerCase()` (ASCII). -/
def strToLower (s : String) : String :=
  String.mk (s.data.map Char.toLower)

/-- JS `parseInt(s, 10)`: skip leading whitespace, optional sign, longest
digit prefix; `none` models `NaN`. -/
def jsParseInt10 (s : String) : Option Int :=
  let cs := s.data.dropWhile fun c => c = ' ' ∨ c = '\t' ∨ c = '\n' ∨ c = '\r'
  let signAndRest : Int × List Char :=
    match cs with
    | '-' :: rest => (-1, rest)
    | '+' :: rest => (1, rest)
    | _ => (1, cs)
  let digits := signAndRest.2.takeWhile Char.isDigit
  if digits.isEmpty then none
  else some (signAndRest.1 * (digits.foldl (fun a c => a * 10 + (c.toNat - 48)) 0 : Nat))

/-! ### Base64 (model of `Utilities.base64Encode` / `Utilities.base64Decode`)

The platform codec is standard RFC 4648 base64 with mandatory padding; on
input that is not valid base64 (bad character or bad length) the platform
decoder throws, which we model by returning `none`. -/

def b64Alphabet : List Char :=
  "ABCDEFGHIJKLMNOPQRSTUVWXYZabcdefghijklmnopqrstuvwxyz0123456789+/".data

def b64CharVal (c : Char) : Option Nat :=
  b64Alphabet.indexOf? c

/-- Encode a byte list (bytes taken mod 256) as standard padded base64. -/
def b64EncodeBytes : List Nat → String
  | [] => ""
  | [x] =>
      let x := x % 256
      String.mk [b64Alphabet.getD (x / 4) 'A', b64Alphabet.getD ((x % 4) * 16) 'A', '=', '=']
  | [x, y] =>
      let x := x % 256; let y := y % 256
      String.mk [b64Alphabet.getD (x / 4) 'A', b64Alphabet.getD ((x % 4) * 16 + y / 16) 'A',
                 b64Alphabet.getD ((y % 16) * 4) 'A', '=']
  | x :: y :: z :: rest =>
      let x := x % 256; let y := y % 256; let z := z % 256
      String.mk [b64Alphabet.getD (x / 4) 'A', b64Alphabet.getD ((x % 4) * 16 + y / 16) 'A',
                 b64Alphabet.getD ((y % 16) * 4 + z / 64) 'A', b64Alphabet.getD (z % 64) 'A']
        ++ b64EncodeBytes rest

/-- Decode standard padded base64; `none` models the platform decoder throwing
on invalid input. -/
def b64DecodeChars : List Char → Option (List Nat)
  | [] => some []
  | a :: b :: c :: d :: rest => do
      let av ← b64CharVal a
      let bv ← b64CharVal b
      if c = '=' ∧ d = '=' then
        if rest = [] then some [av * 4 + bv / 16] else none
      else if d = '=' then
        let cv ← b64CharVal c
        if rest = [] then some [av * 4 + bv / 16, (bv % 16) * 16 + cv / 4] else none
      else do
        let cv ← b64CharVal c
        let dv ← b64CharVal d
        let tail ← b64DecodeChars rest
        some ([av * 4 + bv / 16, (bv % 16) * 16 + cv / 4, (cv % 4) * 64 + dv] ++ tail)
  | _ => none

def b64DecodeStd (s : String) : Option (List Nat) := b64DecodeChars s.data

/-- Utils.gs `base64urlEncode`: standard base64, then `+`→`-`, `/`→`_`, strip
trailing `=` padding. -/
def base64urlEncode (bytes : List Nat) : String :=
  let b := b64EncodeBytes bytes
  let replaced := b.data.map fun c => if c = '+' then '-' else if c = '/' then '_' else c
  String.mk (replaced.reverse.dropWhile (· = '=')).reverse

/-- Utils.gs `base64urlDecode`: map url chars back, re-pad for length mod 4 of
2 or 3 (length mod 4 = 1 is left unpadded and the platform decode throws). -/
def base64urlDecode (s : String) : Option (List Nat) :=
  let mapped := s.data.map fun c => if c = '-' then '+' else if c = '_' then '/' else c
  let pad := mapped.length % 4
  let padded := if pad = 2 then mapped ++ ['=', '='] else if pad = 3 then mapped ++ ['='] else mapped
  b64DecodeChars padded

/-- Model of `Utilities.newBlob(bytes).getDataAsString('UTF-8')`, exact on
ASCII (all inputs exercised here are ASCII); non-ASCII bytes map to the
replacement character. -/
def bytesToString (bytes : List Nat) : String :=
  String.mk (bytes.map fun b => if b < 128 then Char.ofNat b else '�')

/-- Utils.gs `base64urlDecodeToString`; `none` models the platform decoder
throwing. -/
def base64urlDecodeToString (s : String) : Option String :=
  (base64urlDecode s).map bytesToString

/-- ASCII bytes of a string (model of `Utilities.newBlob(s).getBytes()` for
ASCII content). -/
def strBytes (s : String) : List Nat := s.data.map Char.toNat

/-- Utils.gs `constantTimeCompare`: length check then XOR accumulation over
char codes. -/
def constantTimeCompare (a b : String) : Bool :=
  if a.length ≠ b.length then false
  else ((a.data.zip b.data).foldl (fun r p => r ||| (p.1.toNat ^^^ p.2.toNat)) 0) = 0

/-! ### Response envelopes (Utils.gs) -/

structure ErrObj where
  code : String
  message : String
  retryable : Bool
deriving Repr, BEq, DecidableEq

/-- Response envelope: `{ok:true, data}` or `{ok:false, error}`.  The
per-request `requestId` field stapled on by doPost is plumbing and is not
modelled. -/
inductive Envelope where
  | success (data : Jv)
  | failure (e : ErrObj)
deriving Repr

def successResponse (data : Jv) : Envelope := .success data

def errorResponse (code message : String) (retryable : Bool) : Envelope :=
  .failure ⟨code, message, retryable⟩

def Envelope.isOk : Envelope → Bool
  | .success _ => true
  | .failure _ => false

def Envelope.errMessage : Envelope → String
  | .success _ => ""
  | .failure e => e.message

def Envelope.errCode : Envelope → String
  | .success _ => ""
  | .failure e => e.code

/-! ### Replay cache (model of `CacheService.getScriptCache`)

An entry `(key, insertedAt, ttlSec)` is visible at time `now` while
`now < insertedAt + ttlSec`. -/

def Cache := List (String × Int × Int)

def cacheGet (cache : Cache) (now : Int) (key : String) : Bool :=
  cache.any fun e => e.1 = key ∧ now < e.2.1 + e.2.2

def cachePut (cache : Cache) (key : String) (now ttlSec : Int) : Cache :=
  (key, now, ttlSec) :: cache

/-! ### Gmail data (model of GmailApp thread/message objects) -/

structure GAttachment where
  name : String
  contentType : String
  size : Nat
  bytes : List Nat
deriving Repr

structure GMessage where
  id : String
  subject : String          -- getSubject()
  sender : String           -- getFrom()
  recipient : String        -- getTo()
  cc : String
  bcc : String
  replyTo : String
  dateIso : String          -- getDate().toISOString()
  plainBody : String        -- getPlainBody()
  htmlBody : String         -- getBody()
  unread : Bool
  starred : Bool
  attachments : List GAttachment
deriving Repr

structure GThread where
  id : String
  messages : List GMessage
  unread : Bool             -- isUnread()
  labels : List String      -- getLabels().map(getName)
deriving Repr

/-! ### Environment: script properties plus platform primitives -/

/-- The ambient state and platform primitives a request executes against.
Concrete program logic never lives here; each field is a Google Apps Script
platform service used by the sources:
* `props`        — `PropertiesService.getScriptProperties()` contents;
* `hmacSha256`   — `Utilities.computeHmacSha256Signature(signingInput, secretBytes)`
                   (the secret string stands for its UTF-8 bytes);
* `jsonParse`    — `JSON.parse`, with `none` for a thrown parse error
                   (`safeJsonParse` already converts the throw to null);
* `regexCompile` — `new RegExp(pattern, 'i')` as a match predicate, `none`
                   when the pattern does not compile;
* `threadById` / `messageById` — `GmailApp.getThreadById` / `getMessageById`;
* `gmailSearchApp` — `GmailApp.search(query, 0, max)`;
* `gmailOther`   — the Gmail leaf actions not modelled concretely
                   (drafts/labels/settings/send/messageSearch/thread.modify);
                   modelled as writing no audit entries;
* `services`     — the non-gmail entries of `SERVICE_REGISTRY_`
                   (calendar … admin), as handlers that may throw;
* `lockOk`       — whether `LockService` `tryLock(5000)` succeeds;
* `abuseScore`   — the AbuseIPDB `data.abuseConfidenceScore`, `none` when the
                   fetch fails, the body is malformed, or `data` is missing
                   (all of which fail open in `checkIp`);
* `clock`        — successive `new Date().getTime()` readings along a path
                   (index = order of the read on that path), in ms;
* `authNow`      — `Math.floor(Date.now()/1000)` as read inside `verifyJwt`;
* `requestId`    — the `generateId()` result for this request;
* `interceptId` / `interceptNow` — id and timestamp used for
                   `logSecurityIntercept` entries;
* `cache`        — the replay cache state when the request arrives. -/
structure Env where
  props : List (String × String)
  hmacSha256 : String → String → List Nat
  jsonParse : String → Option Jv
  regexCompile : String → Option (String → Bool)
  threadById : String → Option GThread
  messageById : String → Option GMessage
  gmailSearchApp : String → Int → List GThread
  gmailOther : String → Jv → Except String Envelope
  services : String → String → Jv → Except String Envelope
  lockOk : Bool
  abuseScore : Option Int
  clock : Nat → Int
  authNow : Int
  requestId : String
  interceptId : String
  interceptNow : Int
  cache : Cache

/-! ### Config.gs -/

/-- `CONFIG_DEFAULTS_` from Config.gs. -/
def CONFIG_DEFAULTS : List (String × String) :=
  [("LOG_ENABLED", "true"),
   ("LOG_MAX_ROWS", "5000"),
   ("IP_ALLOWLIST", ""),
   ("IP_CHECK_ENABLED", "false"),
   ("IP_CHECK_THRESHOLD", "50"),
   ("SECURITY_BLOCKED_SENDERS",
     "no-reply@accounts.google.com,google-noreply@google.com,mail-noreply@google.com"),
   ("SECURITY_CONTENT_REGEX",
     "(password\\s*reset|verification\\s*code|recovery\\s*link|one-time\\s*password|otp|confirm\\s*your\\s*identity|security\\s*alert)")]

/-- Config.gs `getConfig`: script property if present, else the default, else
null (`none`). -/
def getConfig (env : Env) (key : String) : Option String :=
  match env.props.lookup key with
  | some v => some v
  | none =>
      -- `CONFIG_DEFAULTS_[key] || null`: all defaults are non-empty strings.
      CONFIG_DEFAULTS.lookup key

/-- Config.gs `isConfigured`: JWT_SECRET present and non-empty. -/
def isConfigured (env : Env) : Bool :=
  match getConfig env "JWT_SECRET" with
  | some s => s != ""
  | none => false

/-! ### Auth.gs: IP allow-list and CIDR matching -/

/-- One octet: `parseInt(part, 10)` then `isNaN || < 0 || > 255` check. -/
def ipOctet (s : String) : Option Nat :=
  match jsParseInt10 s with
  | none => none
  | some o => if 0 ≤ o ∧ o ≤ 255 then some o.toNat else none

/-- Auth.gs `ipToInt`: four dot-separated octets packed big-endian; `none`
models returning null. -/
def ipToInt (ip : String) : Option Nat :=
  match jsSplit ip '.' with
  | [a, b, c, d] => do
      let oa ← ipOctet a
      let ob ← ipOctet b
      let oc ← ipOctet c
      let od ← ipOctet d
      some (((oa * 256 + ob) * 256 + oc) * 256 + od)
  | _ => none

/-- The JS mask `maskBits === 0 ? 0 : (-1 << (32 - maskBits)) >>> 0` as an
unsigned 32-bit value: `(-1 << s) >>> 0 = (0xFFFFFFFF << s) mod 2^32`
for shift amounts `s ∈ [0, 31]`. -/
def cidrMask (maskBits : Int) : Nat :=
  if maskBits = 0 then 0
  else ((2 ^ 32 - 1) * 2 ^ (32 - maskBits.toNat)) % 2 ^ 32

/-- Auth.gs `cidrMatch`.  `ipToInt` results are already in `[0, 2^32)`, so the
JS `>>> 0` coercions are identities. -/
def cidrMatch (ip cidr : String) : Bool :=
  match jsSplit cidr '/' with
  | [cidrIp, bitsStr] =>
      match jsParseInt10 bitsStr with
      | none => false
      | some maskBits =>
          if maskBits < 0 ∨ 32 < maskBits then false
          else
            match ipToInt ip, ipToInt cidrIp with
            | some ipNum, some cidrNum =>
                let mask := cidrMask maskBits
                (ipNum &&& mask) = (cidrNum &&& mask)
            | _, _ => false
  | _ => false

/-- One allow-list entry check from the `checkIp` loop: trimmed entry, CIDR
match when it contains `/`, exact match otherwise; empty entries are skipped. -/
def allowEntryMatch (ip entry0 : String) : Bool :=
  let entry := jsTrim entry0
  if entry = "" then false
  else if strContains entry "/" then cidrMatch ip entry
  else ip = entry

/-- Auth.gs `checkIp`: pass on missing/unknown IP; allow-list (exact or CIDR)
when configured; then the optional AbuseIPDB check, which fails open on any
fetch/parse failure. -/
def checkIp (env : Env) (ip : String) : Envelope :=
  if ip = "" ∨ ip = "unknown" then
    successResponse (.obj [("ip", .str ip), ("checked", .bool false)])
  else
    let allowlistBlocks : Bool :=
      match getConfig env "IP_ALLOWLIST" with
      | none => false
      | some al =>
          if al = "" then false
          else ! (jsSplit al ',').any (allowEntryMatch ip)
    if allowlistBlocks then errorResponse "IP_BLOCKED" "IP not in allowlist" false
    else
      let abuseBlocks : Option Int :=
        if getConfig env "IP_CHECK_ENABLED" = some "true" then
          let apiKeyOk :=
            match getConfig env "IP_CHECK_API_KEY" with
            | some k => k != ""
            | none => false
          if apiKeyOk then
            let thresholdStr :=
              match getConfig env "IP_CHECK_THRESHOLD" with
              | some t => if t = "" then "50" else t
              | none => "50"
            match jsParseInt10 thresholdStr, env.abuseScore with
            | some threshold, some score => if threshold ≤ score then some score else none
            | _, _ => none
          else none
        else none
      match abuseBlocks with
      | some score =>
          errorResponse "IP_BLOCKED"
            ("IP flagged by threat intelligence (score: " ++ toString score ++ ")") false
      | none => successResponse (.obj [("ip", .str ip), ("checked", .bool true)])

/-! ### Auth.gs: verifyJwt -/

/-- Stringification used in the `Unsupported algorithm: ` message, where the
accessed property may be `undefined`. -/
def jvOptToString : Option Jv → String
  | some v => jvToString v
  | none => "undefined"

/-- The `exp` temporal test (step 8): `payload.exp && payload.exp + 30 < now`.
Claims are JSON, so a truthy numeric claim is a `.num`; for truthy non-numeric
values the JS comparison is `NaN < now` (false), matching the `false` arms. -/
def expExpired (v : Jv) (now : Int) : Bool :=
  match v with
  | .num n => n + 30 < now
  | _ => false

/-- The `iat` temporal test (step 9): `payload.iat && payload.iat - 30 > now`. -/
def iatInFuture (v : Jv) (now : Int) : Bool :=
  match v with
  | .num n => now < n - 30
  | _ => false

/-- Step 8 condition: `payload.exp && payload.exp + CLOCK_SKEW < now`. -/
def expFails (payload : Jv) (now : Int) : Bool :=
  match jvGet payload "exp" with
  | some v => jvTruthy v && expExpired v now
  | none => false

/-- Step 9 condition: `payload.iat && payload.iat - CLOCK_SKEW > now`. -/
def iatFails (payload : Jv) (now : Int) : Bool :=
  match jvGet payload "iat" with
  | some v => jvTruthy v && iatInFuture v now
  | none => false

/-- Steps 8-10 of `verifyJwt` (the part after the payload has been decoded
and parsed): clock-skewed `exp`/`iat` checks, then the optional jti replay
check-and-insert with the constant TTL of 300 seconds. -/
def verifyClaims (cache : Cache) (nowSec : Int) (payload : Jv) : Envelope × Cache :=
  if expFails payload nowSec then
    (errorResponse "AUTH_FAILED" "Token expired" false, cache)
  else if iatFails payload nowSec then
    (errorResponse "AUTH_FAILED" "Token issued in the future" false, cache)
  else
    match jvGet payload "jti" with
    | some jti =>
        if jvTruthy jti then
          let cacheKey := "jti_" ++ jvToString jti
          if cacheGet cache nowSec cacheKey then
            (errorResponse "AUTH_FAILED" "Token already used (replay detected)" false, cache)
          else
            -- `cache.put(cacheKey, '1', 300); // 5 minutes`
            (successResponse (.obj [("claims", payload)]), cachePut cache cacheKey nowSec 300)
        else
          (successResponse (.obj [("claims", payload)]), cache)
    | none => (successResponse (.obj [("claims", payload)]), cache)

/-- Auth.gs `verifyJwt`, with the current replay-cache state threaded
explicitly and `nowSec = Math.floor(Date.now() / 1000)` supplied by `Env`.
The result `.error m` models a thrown exception (the platform base64 decoder
throws on segments that are not valid base64url); `.ok (envelope, cache)`
is a normal return together with the replay cache after the call. -/
def verifyJwt (env : Env) (cache : Cache) (nowSec : Int) (token : Option Jv) :
    Except String (Envelope × Cache) := do
  -- `if (!token || typeof token !== 'string')`
  match token with
  | some (.str tok) =>
    if tok = "" then
      return (errorResponse "AUTH_FAILED" "Missing or invalid token" false, cache)
    else
    -- `var secret = getConfig('JWT_SECRET'); if (!secret)`
    match getConfig env "JWT_SECRET" with
    | none => return (errorResponse "AUTH_FAILED" "Server not configured — missing JWT_SECRET" false, cache)
    | some secret =>
    if secret = "" then
      return (errorResponse "AUTH_FAILED" "Server not configured — missing JWT_SECRET" false, cache)
    else
    -- 1. Split token
    match jsSplit tok '.' with
    | [headerB64, payloadB64, signatureB64] =>
      -- 2. Decode header (a failed base64 decode is a thrown exception)
      match base64urlDecodeToString headerB64 with
      | none => throw "Invalid base64 data"
      | some headerStr =>
      let headerOpt := env.jsonParse headerStr
      match headerOpt with
      | none => return (errorResponse "AUTH_FAILED" "Invalid token header" false, cache)
      | some header =>
      if ! jvTruthy header then
        return (errorResponse "AUTH_FAILED" "Invalid token header" false, cache)
      else
      -- 3. Verify algorithm (`header.alg !== 'HS256'`)
      let algOk :=
        match jvGet header "alg" with
        | some (.str a) => a == "HS256"
        | _ => false
      if ! algOk then
        return (errorResponse "AUTH_FAILED"
          ("Unsupported algorithm: " ++ jvOptToString (jvGet header "alg")) false, cache)
      else
      -- `header.typ && header.typ !== 'JWT'`
      let typBad :=
        match jvGet header "typ" with
        | some (.str t) => t != "" && t != "JWT"
        | some t => jvTruthy t
        | none => false
      if typBad then
        return (errorResponse "AUTH_FAILED" "Invalid token type" false, cache)
      else
      -- 4.-5. HMAC-SHA256 of the signing input, base64url-encoded
      let signingInput := headerB64 ++ "." ++ payloadB64
      let expectedSignature := base64urlEncode (env.hmacSha256 signingInput secret)
      -- 6. Constant-time compare
      if ! constantTimeCompare expectedSignature signatureB64 then
        return (errorResponse "AUTH_FAILED" "Invalid signature" false, cache)
      else
      -- 7. Decode payload
      match base64urlDecodeToString payloadB64 with
      | none => throw "Invalid base64 data"
      | some payloadStr =>
      match env.jsonParse payloadStr with
      | none => return (errorResponse "AUTH_FAILED" "Invalid token payload" false, cache)
      | some payload =>
      if ! jvTruthy payload then
        return (errorResponse "AUTH_FAILED" "Invalid token payload" false, cache)
      else
      -- 8.-10. Temporal checks and replay protection
      return verifyClaims cache nowSec payload
    | _ => return (errorResponse "AUTH_FAILED" "Malformed token" false, cache)
  | _ => return (errorResponse "AUTH_FAILED" "Missing or invalid token" false, cache)

/-! ### Logger.gs -/

/-- One row of the audit sheet: Timestamp | Request ID | Source IP | Service |
Action | Status | Duration(ms) | Error.  `ts` stands for the ISO timestamp. -/
structure AuditEntry where
  ts : Int
  requestId : String
  ip : String
  service : String
  action : String
  status : String
  durationMs : Int
  errorMsg : String
deriving Repr, BEq, DecidableEq

/-- Logger.gs `logRequest`: returns the rows appended to the sheet (empty when
logging is disabled, no sheet is configured, or the lock is not acquired).
The `|| 'unknown'` default on the IP is the only `||` default with effect on
string fields; `durationMs || 0` and the string `|| ''` defaults are
identities in this model.  The rolling-window trim deletes old rows and is
not part of the appended-entry model. -/
def logRequest (env : Env) (now : Int) (requestId ip service action status : String)
    (durationMs : Int) (errorMsg : String) : List AuditEntry :=
  if getConfig env "LOG_ENABLED" ≠ some "true" then []
  else
    match getConfig env "LOG_SHEET_ID" with
    | none => []
    | some sheetId =>
        if sheetId = "" then []
        else if ! env.lockOk then []
        else [{ ts := now, requestId := requestId,
                ip := if ip = "" then "unknown" else ip,
                service := service, action := action, status := status,
                durationMs := durationMs, errorMsg := errorMsg }]

/-! ### SecurityFilter.gs -/

/-- `getBlockedSenders_`: trimmed, lowercased, empties dropped. -/
def getBlockedSenders (env : Env) : List String :=
  let raw := (getConfig env "SECURITY_BLOCKED_SENDERS").getD ""
  if raw = "" then []
  else ((jsSplit raw ',').map fun s => strToLower (jsTrim s)).filter (· ≠ "")

/-- `getSecurityContentRegex_`: compiled case-insensitive regex, `none` when
unconfigured or the pattern does not compile. -/
def getSecurityContentRegex (env : Env) : Option (String → Bool) :=
  match getConfig env "SECURITY_CONTENT_REGEX" with
  | none => none
  | some pattern => if pattern = "" then none else env.regexCompile pattern

/-- First `n` characters, JS `substring(0, n)`. -/
def strTake (s : String) (n : Nat) : String := String.mk (s.data.take n)

/-- SecurityFilter.gs `isSecurityEmail`: blocked-sender substring match on the
lowercased From, then the content regex on the subject and on the first 500
characters of the plain-text body. -/
def isSecurityEmail (env : Env) (m : GMessage) : Bool :=
  let sender := strToLower m.sender
  if (getBlockedSenders env).any (fun b => strContains sender b) then true
  else
    match getSecurityContentRegex env with
    | some re =>
        if re m.subject then true
        else if m.plainBody ≠ "" && re (strTake m.plainBody 500) then true
        else false
    | none => false

/-- SecurityFilter.gs `isSecurityThread`: any message sensitive. -/
def isSecurityThread (env : Env) (t : GThread) : Bool :=
  t.messages.any (isSecurityEmail env)

/-- SecurityFilter.gs `logSecurityIntercept`: a `BLOCKED` audit row with
`ip = 'internal'`, `service = 'gmail'`, zero duration. -/
def logSecurityIntercept (env : Env) (action detail : String) : List AuditEntry :=
  logRequest env env.interceptNow env.interceptId "internal" "gmail"
    ("security_intercept:" ++ action) "BLOCKED" 0 detail

/-! ### Router.gs helpers -/

/-- The missing-parameter test from Router.gs `validateParams`:
`params[key] === undefined || params[key] === null || params[key] === ''`. -/
def jvMissing : Option Jv → Bool
  | none => true
  | some .nul => true
  | some (.str "") => true
  | some _ => false

/-- Router.gs `validateParams`: first required key that is `undefined`, null
or `''` yields `INVALID_REQUEST`. -/
def validateParams (params : Jv) : List String → Option Envelope
  | [] => none
  | key :: rest =>
      if jvMissing (jvGet params key) then
        some (errorResponse "INVALID_REQUEST" ("Missing required parameter: " ++ key) false)
      else validateParams params rest

/-- Router.gs `validatePositiveInt`: default on `undefined`/null/`''`/NaN/< 1,
clamped above by `maxVal` (our callers always pass a non-zero `maxVal`). -/
def validatePositiveInt (value : Option Jv) (defaultVal maxVal : Int) : Int :=
  match value with
  | none => defaultVal
  | some .nul => defaultVal
  | some (.str "") => defaultVal
  | some v =>
      match jsParseInt10 (jvToString v) with
      | none => defaultVal
      | some n =>
          if n < 1 then defaultVal
          else if maxVal ≠ 0 ∧ maxVal < n then maxVal
          else n

/-! ### Gmail.gs: the read paths

`gmailGet` (actions `get` and `read`), `gmailAttachmentsDownload` and
`gmailSearch` are translated concretely; the remaining leaf actions only wrap
platform calls and are abstracted behind `Env.gmailOther`.  A handler result
is `Except String (Envelope × List AuditEntry)`: the envelope returned plus
the security-intercept audit rows written while handling, with `.error`
modelling a thrown exception (in which case rows written before the throw are
not tracked; no claim depends on them). -/

/-- Attachment metadata object used inside `gmailGet` message objects. -/
def attachmentMetaJv (a : GAttachment) : Jv :=
  .obj [("name", .str a.name), ("contentType", .str a.contentType), ("size", .num a.size)]

/-- The per-message object built by the `gmailGet` loop. -/
def gmailGetMessageJv (m : GMessage) : Jv :=
  .obj [("messageId", .str m.id),
        ("from", .str m.sender),
        ("to", .str m.recipient),
        ("cc", .str m.cc),
        ("bcc", .str m.bcc),
        ("replyTo", .str m.replyTo),
        ("date", .str m.dateIso),
        ("body", .str m.plainBody),
        ("bodyHtml", .str m.htmlBody),
        ("isUnread", .bool m.unread),
        ("isStarred", .bool m.starred),
        ("attachments", .arr (m.attachments.map attachmentMetaJv))]

/-- Gmail.gs `gmailGet` (actions `get` and `read`): required `threadId`,
NOT_FOUND on a missing thread, FORBIDDEN plus a security-intercept row on a
security-sensitive thread, otherwise the full thread content.  An empty
message list would make `messages[0].getSubject()` throw; GmailApp threads
always carry at least one message. -/
def gmailGet (env : Env) (params : Jv) : Except String (Envelope × List AuditEntry) :=
  match validateParams params ["threadId"] with
  | some err => .ok (err, [])
  | none =>
    let tid := jvToString ((jvGet params "threadId").getD .nul)
    match env.threadById tid with
    | none => .ok (errorResponse "NOT_FOUND" ("Thread not found: " ++ tid) false, [])
    | some thread =>
      if isSecurityThread env thread then
        .ok (errorResponse "FORBIDDEN" "Access to this thread is restricted by security policy" false,
             logSecurityIntercept env "get" ("Blocked access to thread " ++ tid))
      else
        match thread.messages with
        | [] => .error "Cannot read properties of undefined"
        | first :: _ =>
          .ok (successResponse (.obj
                [("threadId", .str thread.id),
                 ("subject", .str first.subject),
                 ("messageCount", .num thread.messages.length),
                 ("isUnread", .bool thread.unread),
                 ("labels", .arr (thread.labels.map Jv.str)),
                 ("messages", .arr (thread.messages.map gmailGetMessageJv))]), [])

/-- One attachment object of the `attachments.download` all-attachments
result, carrying the base64-encoded content. -/
def attachmentFullJv (idx : Nat) (a : GAttachment) : Jv :=
  .obj [("index", .num idx), ("name", .str a.name), ("contentType", .str a.contentType),
        ("size", .num a.size), ("content", .str (b64EncodeBytes a.bytes))]

/-- Gmail.gs `gmailAttachmentsDownload`: required `messageId`; optional
`attachmentIndex` selects one attachment (a non-numeric index makes both JS
bound checks false against NaN and the subsequent member access throws);
otherwise all attachments, each with base64 content.  Note: no
security-sensitivity check appears anywhere on this path. -/
def gmailAttachmentsDownload (env : Env) (params : Jv) :
    Except String (Envelope × List AuditEntry) :=
  match validateParams params ["messageId"] with
  | some err => .ok (err, [])
  | none =>
    let mid := jvToString ((jvGet params "messageId").getD .nul)
    match env.messageById mid with
    | none => .ok (errorResponse "NOT_FOUND" "Message not found" false, [])
    | some m =>
      match jvGet params "attachmentIndex" with
      | some idxJ =>
          match jsParseInt10 (jvToString idxJ) with
          | none => .error "Cannot read properties of undefined"
          | some idx =>
              if idx < 0 ∨ (m.attachments.length : Int) ≤ idx then
                .ok (errorResponse "NOT_FOUND" "Attachment index out of range" false, [])
              else
                match m.attachments.get? idx.toNat with
                | none => .error "Cannot read properties of undefined"
                | some a =>
                    .ok (successResponse (.obj
                          [("name", .str a.name), ("contentType", .str a.contentType),
                           ("size", .num a.size),
                           ("content", .str (b64EncodeBytes a.bytes))]), [])
      | none =>
          .ok (successResponse (.obj
                [("attachments", .arr ((m.attachments.enum).map fun p => attachmentFullJv p.1 p.2))]),
               [])

/-- The thread item built by the `gmailSearch` loop (subject from the first
message, remaining header fields and snippet from the last). -/
def gmailSearchItemJv (includeBody : Bool) (t : GThread) (first last : GMessage) : Jv :=
  .obj ([("threadId", .str t.id),
         ("subject", .str first.subject),
         ("from", .str last.sender),
         ("to", .str last.recipient),
         ("date", .str last.dateIso),
         ("messageCount", .num t.messages.length),
         ("isUnread", .bool t.unread),
         ("isStarred", .bool (t.messages.any (·.starred))),
         ("labels", .arr (t.labels.map Jv.str)),
         ("snippet", .str (strTake last.plainBody 200))]
        ++ (if includeBody then [("body", .str last.plainBody)] else []))

/-- The `gmailSearch` loop over the threads returned by `GmailApp.search`:
security-sensitive threads are skipped with an intercept row, the rest become
result items. -/
def gmailSearchLoop (env : Env) (includeBody : Bool) :
    List GThread → Except String (List Jv × List AuditEntry)
  | [] => .ok ([], [])
  | t :: rest =>
      if isSecurityThread env t then
        match gmailSearchLoop env includeBody rest with
        | .ok (items, rows) =>
            .ok (items, logSecurityIntercept env "search" ("Filtered thread " ++ t.id) ++ rows)
        | .error m => .error m
      else
        match t.messages.head?, t.messages.getLast? with
        | some first, some last =>
            match gmailSearchLoop env includeBody rest with
            | .ok (items, rows) => .ok (gmailSearchItemJv includeBody t first last :: items, rows)
            | .error m => .error m
        | _, _ => .error "Cannot read properties of undefined"

/-- Gmail.gs `gmailSearch`: query defaulting to `is:inbox`, `max` clamped into
`[1, 100]` with default 20, security-sensitive threads filtered out with a
`BLOCKED` intercept row each; `count` is the post-filter size. -/
def gmailSearch (env : Env) (params : Jv) : Except String (Envelope × List AuditEntry) :=
  let query :=
    match jvGet params "query" with
    | some v => if jvTruthy v then jvToString v else "is:inbox"
    | none => "is:inbox"
  let maxN := validatePositiveInt (jvGet params "max") 20 100
  let includeBody :=
    match jvGet params "includeBody" with
    | some (.bool true) => true
    | _ => false
  match gmailSearchLoop env includeBody (env.gmailSearchApp query maxN) with
  | .ok (items, rows) =>
      .ok (successResponse (.obj [("threads", .arr items), ("count", .num items.length)]), rows)
  | .error m => .error m

/-- Gmail.gs `handleGmail` dispatch.  The listed platform-wrapping leaves are
abstracted behind `Env.gmailOther` (in the source, `messageSearch` and
`thread.modify` may additionally write `BLOCKED` intercept rows of the same
shape as the ones modelled in `gmailSearch`/`gmailGet`). -/
def handleGmail (env : Env) (action : String) (params : Jv) :
    Except String (Envelope × List AuditEntry) :=
  match action with
  | "search" => gmailSearch env params
  | "get" => gmailGet env params
  | "read" => gmailGet env params
  | "attachments.download" => gmailAttachmentsDownload env params
  | "messageSearch" | "send" | "labels.list" | "labels.create" | "labels.delete"
  | "thread.modify" | "drafts.list" | "drafts.create" | "drafts.update" | "drafts.send"
  | "settings.vacation" | "settings.filters.list" | "settings.filters.create"
  | "settings.filters.delete" | "settings.forwarding" | "settings.sendAs"
  | "settings.delegates" =>
      (env.gmailOther action params).map fun e => (e, [])
  | _ => .ok (errorResponse "NOT_FOUND" ("Unknown Gmail action: " ++ action) false, [])

/-! ### Router.gs: routeRequest -/

/-- The non-gmail keys of `SERVICE_REGISTRY_`. -/
def otherServiceNames : List String :=
  ["calendar", "drive", "docs", "sheets", "slides", "contacts", "people",
   "tasks", "groups", "chat", "classroom", "admin"]

/-- The catch block of `routeRequest`: an exception whose (truthy) message
contains the substring `'quota'` maps to `QUOTA_EXCEEDED`, anything else to
`SERVICE_ERROR` with message `service.action failed: <cause>`. -/
def routeCatch (service action msg : String) : Envelope :=
  if msg ≠ "" ∧ strContains msg "quota" then
    errorResponse "QUOTA_EXCEEDED" ("API quota exceeded: " ++ msg) true
  else
    errorResponse "SERVICE_ERROR" (service ++ "." ++ action ++ " failed: " ++ msg) true

/-- Router.gs `routeRequest`: reject missing/non-string service or action,
resolve the handler by lowercased service name, run it inside the trap. -/
def routeRequest (env : Env) (service action params : Jv) : Envelope × List AuditEntry :=
  match service with
  | .str s =>
    if s = "" then (errorResponse "INVALID_REQUEST" "Missing service name" false, [])
    else
      match action with
      | .str a =>
        if a = "" then (errorResponse "INVALID_REQUEST" "Missing action name" false, [])
        else
          let lower := strToLower s
          let paramsObj := if jvTruthy params then params else .obj []
          if lower = "gmail" then
            match handleGmail env a paramsObj with
            | .ok result => result
            | .error m => (routeCatch s a m, [])
          else if otherServiceNames.contains lower then
            match env.services lower a paramsObj with
            | .ok envl => (envl, [])
            | .error m => (routeCatch s a m, [])
          else (errorResponse "NOT_FOUND" ("Unknown service: " ++ s) false, [])
      | _ => (errorResponse "INVALID_REQUEST" "Missing action name" false, [])
  | _ => (errorResponse "INVALID_REQUEST" "Missing service name" false, [])

/-! ### Code.gs: doPost -/

/-- JS `x || dflt` on an optional JS value. -/
def jvOr (o : Option Jv) (dflt : Jv) : Jv :=
  match o with
  | some v => if jvTruthy v then v else dflt
  | none => dflt

/-- The body of doPost after the request body has been parsed: JWT
verification, IP check, dispatch, the main audit row, and the late timeout
check (which appends a second, `TIMEOUT`, row).  `startTime` is the
`new Date().getTime()` reading taken on entry; subsequent readings on the
path are `env.clock 1` and `env.clock 2`.  The `.error` arm of `verifyJwt`
is the outer `catch (err)` of doPost. -/
def doPostPipeline (env : Env) (startTime : Int) (body : Jv) : Envelope × List AuditEntry :=
  let requestId := env.requestId
  let jwtJ := jvGet body "jwt"
  let serviceJ := jvOr (jvGet body "service") (.str "")
  let actionJ := jvOr (jvGet body "action") (.str "")
  let params := jvOr (jvGet body "params") (.obj [])
  let clientIp :=
    match jvGet body "clientIp" with
    | some v => if jvTruthy v then jvToString v else "unknown"
    | none => "unknown"
  let sStr := jvToString serviceJ
  let aStr := jvToString actionJ
  match verifyJwt env env.cache env.authNow jwtJ with
  | .error m =>
      let duration := env.clock 1 - startTime
      (errorResponse "SERVICE_ERROR" m true,
       logRequest env (env.clock 1) requestId clientIp sStr aStr "ERROR" duration m)
  | .ok (authResult, _) =>
      if ! authResult.isOk then
        let duration := env.clock 1 - startTime
        (authResult,
         logRequest env (env.clock 1) requestId clientIp sStr aStr "AUTH_FAILED" duration
           authResult.errMessage)
      else
        let ipResult := checkIp env clientIp
        if ! ipResult.isOk then
          let duration := env.clock 1 - startTime
          (ipResult,
           logRequest env (env.clock 1) requestId clientIp sStr aStr "IP_BLOCKED" duration
             ipResult.errMessage)
        else
          let routed := routeRequest env serviceJ actionJ params
          let result := routed.1
          let duration := env.clock 1 - startTime
          let mainRows := logRequest env (env.clock 1) requestId clientIp sStr aStr
            (if result.isOk then "OK" else "ERROR") duration result.errMessage
          let elapsed := env.clock 2 - startTime
          if 330000 < elapsed then
            (errorResponse "TIMEOUT" "Approaching execution time limit" true,
             routed.2 ++ mainRows ++
               logRequest env (env.clock 2) requestId clientIp sStr aStr "TIMEOUT" elapsed
                 "Approaching execution time limit")
          else (result, routed.2 ++ mainRows)

/-- Code.gs `doPost`: empty or unparseable bodies are rejected before any
audit write; otherwise the full pipeline runs.  The result is the response
envelope together with every audit row written while handling the request. -/
def doPost (env : Env) (contents : Option String) : Envelope × List AuditEntry :=
  let startTime := env.clock 0
  match contents with
  | none => (errorResponse "INVALID_REQUEST" "Empty request body" false, [])
  | some s =>
    if s = "" then (errorResponse "INVALID_REQUEST" "Empty request body" false, [])
    else
      match env.jsonParse s with
      | none => (errorResponse "INVALID_REQUEST" "Invalid JSON in request body" false, [])
      | some body =>
        if ! jvTruthy body then
          (errorResponse "INVALID_REQUEST" "Invalid JSON in request body" false, [])
        else doPostPipeline env startTime body

/-! ### The generated init-window variant of Code.gs (`generateInitCodeGs`) -/

/-- The `_init`/`setSecret` secret validation:
`!body.params || !body.params.secret || body.params.secret.length < 32`.
On a truthy non-string secret, `.length` is `undefined` and `undefined < 32`
is false, so the check passes. -/
def initSecretBad (body : Jv) : Bool :=
  match jvGet body "params" with
  | none => true
  | some p =>
      if ! jvTruthy p then true
      else
        match jvGet p "secret" with
        | none => true
        | some sv =>
            if ! jvTruthy sv then true
            else
              match sv with
              | .str s => s.length < 32
              | _ => false

/-- doPost as emitted by `generateInitCodeGs(deployTs)`: identical to `doPost`
except that, right after `var jwt = body.jwt;`, requests with
`service === '_init' && action === 'setSecret'` short-circuit through the
init-window branch.  Every init branch returns directly without calling
`logRequest`.  On the success branch the source also executes
`setConfig('JWT_SECRET', body.params.secret)`; the property write is a state
change outside this per-request result. -/
def doPostInit (env : Env) (deployTs : Int) (contents : Option String) :
    Envelope × List AuditEntry :=
  let startTime := env.clock 0
  match contents with
  | none => (errorResponse "INVALID_REQUEST" "Empty request body" false, [])
  | some s =>
    if s = "" then (errorResponse "INVALID_REQUEST" "Empty request body" false, [])
    else
      match env.jsonParse s with
      | none => (errorResponse "INVALID_REQUEST" "Invalid JSON in request body" false, [])
      | some body =>
        if ! jvTruthy body then
          (errorResponse "INVALID_REQUEST" "Invalid JSON in request body" false, [])
        else
          let isInit :=
            (match jvGet body "service" with
             | some (.str sv) => sv == "_init"
             | _ => false) &&
            (match jvGet body "action" with
             | some (.str av) => av == "setSecret"
             | _ => false)
          if isInit then
            let now := env.clock 1
            let windowExpired := 300000 < now - deployTs
            if isConfigured env then
              (errorResponse "INIT_REJECTED" "Already configured" false, [])
            else if windowExpired then
              (errorResponse "INIT_EXPIRED" "Init window has expired" false, [])
            else if initSecretBad body then
              (errorResponse "INVALID_REQUEST" "Secret must be at least 32 characters" false, [])
            else
              (successResponse (.obj [("message", .str "JWT_SECRET configured successfully")]), [])
          else doPostPipeline env startTime body

/-! ## Shared helper facts and a base environment for concrete instances -/

/-- A neutral environment; concrete scenarios below override the fields they
need. -/
def baseEnv : Env where
  props := []
  hmacSha256 := fun _ _ => []
  jsonParse := fun _ => none
  regexCompile := fun _ => none
  threadById := fun _ => none
  messageById := fun _ => none
  gmailSearchApp := fun _ _ => []
  gmailOther := fun _ _ => .error ""
  services := fun _ _ _ => .error ""
  lockOk := true
  abuseScore := none
  clock := fun i => 1000 * i
  authNow := 1700000000
  requestId := "req-00000000"
  interceptId := "req-11111111"
  interceptNow := 0
  cache := []

theorem jvTruthy_of_get {v : Jv} {k : String} {r : Jv} (h : jvGet v k = some r) :
    jvTruthy v = true := by
  cases v <;> simp_all [jvGet, jvTruthy]

/-- Reduction of `verifyJwt` for a well-formed token: once the secret is
configured, the segments decode and parse, the algorithm is `HS256` with no
`typ`, and the signature compares equal, the verifier reduces to the
temporal/replay stage `verifyClaims`. -/
theorem verifyJwt_prepared (env : Env) (cache : Cache) (now : Int)
    (hB pB sigB hdrStr payStr : String) (header payload : Jv) (secret : String)
    (hsec : getConfig env "JWT_SECRET" = some secret) (hsne : secret ≠ "")
    (hsplit : jsSplit (hB ++ "." ++ pB ++ "." ++ sigB) '.' = [hB, pB, sigB])
    (hhdec : base64urlDecodeToString hB = some hdrStr)
    (hhparse : env.jsonParse hdrStr = some header)
    (halg : jvGet header "alg" = some (.str "HS256"))
    (htyp : jvGet header "typ" = none)
    (hsig : constantTimeCompare (base64urlEncode (env.hmacSha256 (hB ++ "." ++ pB) secret)) sigB
            = true)
    (hpdec : base64urlDecodeToString pB = some payStr)
    (hpparse : env.jsonParse payStr = some payload)
    (hptr : jvTruthy payload = true) :
    verifyJwt env cache now (some (.str (hB ++ "." ++ pB ++ "." ++ sigB))) =
      .ok (verifyClaims cache now payload) := by
  have htok : ¬ (hB ++ "." ++ pB ++ "." ++ sigB) = "" := by
    intro h
    have hlen := congrArg String.length h
    simp [String.length_append] at hlen
    exact absurd hlen.1.1.1.2 (by decide)
  have hhtr : jvTruthy header = true := jvTruthy_of_get halg
  unfold verifyJwt
  rw [hsec]
  simp only [if_neg htok, if_neg hsne, hsplit, hhdec, hhparse, hhtr, halg, htyp, hsig, hpdec,
    hpparse, hptr, Bool.not_true, Bool.false_eq_true, if_false, beq_self_eq_true, ite_true]
  rfl

/-! ## C9 — CIDR match correctness -/

/-- C9: `cidrMatch(ip, "0.0.0.0/0")` is true for every parseable IPv4
address; `cidrMatch("10.1.2.3", "10.1.0.0/16")` is true and
`cidrMatch("10.2.0.0", "10.1.0.0/16")` is false; the mask used is
`bits == 0 ? 0 : 0xFFFFFFFF << (32 - bits)` on 32-bit packed addresses. -/
theorem cidr_match_correct :
    (∀ (ip : String) (n : Nat), ipToInt ip = some n → cidrMatch ip "0.0.0.0/0" = true)
    ∧ cidrMatch "10.1.2.3" "10.1.0.0/16" = true
    ∧ cidrMatch "10.2.0.0" "10.1.0.0/16" = false
    ∧ (∀ bits : Int, 0 < bits → bits ≤ 32 →
        cidrMask bits = ((2 ^ 32 - 1) <<< (32 - bits.toNat)) % 2 ^ 32)
    ∧ cidrMask 0 = 0 := by
  refine ⟨?_, by decide, by decide, ?_, by decide⟩
  · intro ip n h
    unfold cidrMatch
    rw [show (jsSplit "0.0.0.0/0" '/' = ["0.0.0.0", "0"]) from by decide]
    simp only [h, show jsParseInt10 "0" = some 0 from by decide,
      show ipToInt "0.0.0.0" = some 0 from by decide]
    norm_num [cidrMask]
  · intro bits h0 h32
    rw [cidrMask, if_neg (by omega), Nat.shiftLeft_eq]

/-- Witness for C9: the universal clauses applied to concrete inputs. -/
theorem cidr_match_correct_witness :
    cidrMatch "1.2.3.4" "0.0.0.0/0" = true
    ∧ cidrMask 16 = ((2 ^ 32 - 1) <<< 16) % 2 ^ 32 :=
  ⟨cidr_match_correct.1 "1.2.3.4" 16909060 (by decide),
   by simpa using cidr_match_correct.2.2.2.1 16 (by decide) (by decide)⟩

/-! ## C3 — verifyJwt totality (code bug: the base64url decode can throw) -/

/-- The concrete environment for the C3 failing input: a configured secret,
otherwise neutral. -/
def c3Env : Env :=
  { baseEnv with props := [("JWT_SECRET", "topsecret-abcdefghijklmnopqrstu1")] }

/-- C3: evaluation of `verifyJwt` at the failing input `"A.A.A"`.  The token
has three segments, but the header segment `"A"` has length 1 mod 4, so
`base64urlDecode` leaves it unpadded and the platform decoder throws — the
call does not return an `AUTH_FAILED` envelope, contradicting the claimed
totality.  (doPost's outer trap then surfaces it as `SERVICE_ERROR` and logs
status `ERROR`, not `AUTH_FAILED`.) -/
theorem verifyJwt_throws_on_bad_base64 :
    verifyJwt c3Env [] 1700000000 (some (.str "A.A.A")) = .error "Invalid base64 data"
    ∧ ∀ e : Envelope × Cache, verifyJwt c3Env [] 1700000000 (some (.str "A.A.A")) ≠ .ok e := by
  refine ⟨rfl, ?_⟩
  intro e h
  rw [show verifyJwt c3Env [] 1700000000 (some (.str "A.A.A")) = .error "Invalid base64 data"
      from rfl] at h
  exact Except.noConfusion h

/-! ## C8 — clock-skew boundaries -/

/-- C8: for a token whose signature verifies and whose claims parse, with
`exp` and `iat` present: `exp = now - 30` is accepted and `exp = now - 31` is
rejected as expired; `iat = now + 30` is accepted and `iat = now + 31` is
rejected as issued-in-future.  The four tokens share the header; each carries
its own payload and signature.  (The non-zero proviso of the claim appears as
`now - 31 ≠ 0` / `now + 31 ≠ 0` on the two rejection clauses: a zero claim is
falsy and would be skipped.) -/
theorem clock_skew_boundaries (env : Env) (cache : Cache) (now : Int)
    (hB hdrStr : String) (header : Jv) (secret : String)
    (pB1 sigB1 payStr1 : String) (payload1 : Jv)
    (pB2 sigB2 payStr2 : String) (payload2 : Jv)
    (pB3 sigB3 payStr3 : String) (payload3 : Jv)
    (pB4 sigB4 payStr4 : String) (payload4 : Jv)
    (iat1 e3 e4 : Int)
    (hsec : getConfig env "JWT_SECRET" = some secret) (hsne : secret ≠ "")
    (hhdec : base64urlDecodeToString hB = some hdrStr)
    (hhparse : env.jsonParse hdrStr = some header)
    (halg : jvGet header "alg" = some (.str "HS256"))
    (htyp : jvGet header "typ" = none)
    (hsplit1 : jsSplit (hB ++ "." ++ pB1 ++ "." ++ sigB1) '.' = [hB, pB1, sigB1])
    (hsig1 : constantTimeCompare (base64urlEncode (env.hmacSha256 (hB ++ "." ++ pB1) secret)) sigB1 = true)
    (hpdec1 : base64urlDecodeToString pB1 = some payStr1)
    (hpparse1 : env.jsonParse payStr1 = some payload1)
    (hexp1 : jvGet payload1 "exp" = some (.num (now - 30)))
    (hiat1 : jvGet payload1 "iat" = some (.num iat1)) (hiat1pass : iat1 - 30 ≤ now)
    (hjti1 : jvGet payload1 "jti" = none)
    (hsplit2 : jsSplit (hB ++ "." ++ pB2 ++ "." ++ sigB2) '.' = [hB, pB2, sigB2])
    (hsig2 : constantTimeCompare (base64urlEncode (env.hmacSha256 (hB ++ "." ++ pB2) secret)) sigB2 = true)
    (hpdec2 : base64urlDecodeToString pB2 = some payStr2)
    (hpparse2 : env.jsonParse payStr2 = some payload2)
    (hexp2 : jvGet payload2 "exp" = some (.num (now - 31))) (hnz2 : now - 31 ≠ 0)
    (hsplit3 : jsSplit (hB ++ "." ++ pB3 ++ "." ++ sigB3) '.' = [hB, pB3, sigB3])
    (hsig3 : constantTimeCompare (base64urlEncode (env.hmacSha256 (hB ++ "." ++ pB3) secret)) sigB3 = true)
    (hpdec3 : base64urlDecodeToString pB3 = some payStr3)
    (hpparse3 : env.jsonParse payStr3 = some payload3)
    (hiat3 : jvGet payload3 "iat" = some (.num (now + 30)))
    (hexp3 : jvGet payload3 "exp" = some (.num e3)) (he3 : now ≤ e3 + 30)
    (hjti3 : jvGet payload3 "jti" = none)
    (hsplit4 : jsSplit (hB ++ "." ++ pB4 ++ "." ++ sigB4) '.' = [hB, pB4, sigB4])
    (hsig4 : constantTimeCompare (base64urlEncode (env.hmacSha256 (hB ++ "." ++ pB4) secret)) sigB4 = true)
    (hpdec4 : base64urlDecodeToString pB4 = some payStr4)
    (hpparse4 : env.jsonParse payStr4 = some payload4)
    (hiat4 : jvGet payload4 "iat" = some (.num (now + 31))) (hnz4 : now + 31 ≠ 0)
    (hexp4 : jvGet payload4 "exp" = some (.num e4)) (he4 : now ≤ e4 + 30) :
    verifyJwt env cache now (some (.str (hB ++ "." ++ pB1 ++ "." ++ sigB1))) =
      .ok (successResponse (.obj [("claims", payload1)]), cache)
    ∧ verifyJwt env cache now (some (.str (hB ++ "." ++ pB2 ++ "." ++ sigB2))) =
      .ok (errorResponse "AUTH_FAILED" "Token expired" false, cache)
    ∧ verifyJwt env cache now (some (.str (hB ++ "." ++ pB3 ++ "." ++ sigB3))) =
      .ok (successResponse (.obj [("claims", payload3)]), cache)
    ∧ verifyJwt env cache now (some (.str (hB ++ "." ++ pB4 ++ "." ++ sigB4))) =
      .ok (errorResponse "AUTH_FAILED" "Token issued in the future" false, cache) := by
  refine ⟨?_, ?_, ?_, ?_⟩
  · rw [verifyJwt_prepared env cache now hB pB1 sigB1 hdrStr payStr1 header payload1 secret
      hsec hsne hsplit1 hhdec hhparse halg htyp hsig1 hpdec1 hpparse1 (jvTruthy_of_get hexp1)]
    have h1 : expFails payload1 now = false := by
      simp only [expFails, hexp1, expExpired, jvTruthy]
      simp <;> omega
    have h2 : iatFails payload1 now = false := by
      simp only [iatFails, hiat1, iatInFuture, jvTruthy]
      simp <;> omega
    simp only [verifyClaims, h1, h2, hjti1, Bool.false_eq_true, if_false]
  · rw [verifyJwt_prepared env cache now hB pB2 sigB2 hdrStr payStr2 header payload2 secret
      hsec hsne hsplit2 hhdec hhparse halg htyp hsig2 hpdec2 hpparse2 (jvTruthy_of_get hexp2)]
    have h1 : expFails payload2 now = true := by
      simp only [expFails, hexp2, expExpired, jvTruthy]
      simp <;> omega
    simp only [verifyClaims, h1, if_true]
  · rw [verifyJwt_prepared env cache now hB pB3 sigB3 hdrStr payStr3 header payload3 secret
      hsec hsne hsplit3 hhdec hhparse halg htyp hsig3 hpdec3 hpparse3 (jvTruthy_of_get hexp3)]
    have h1 : expFails payload3 now = false := by
      simp only [expFails, hexp3, expExpired, jvTruthy]
      simp <;> omega
    have h2 : iatFails payload3 now = false := by
      simp only [iatFails, hiat3, iatInFuture, jvTruthy]
      simp <;> omega
    simp only [verifyClaims, h1, h2, hjti3, Bool.false_eq_true, if_false]
  · rw [verifyJwt_prepared env cache now hB pB4 sigB4 hdrStr payStr4 header payload4 secret
      hsec hsne hsplit4 hhdec hhparse halg htyp hsig4 hpdec4 hpparse4 (jvTruthy_of_get hexp4)]
    have h1 : expFails payload4 now = false := by
      simp only [expFails, hexp4, expExpired, jvTruthy]
      simp <;> omega
    have h2 : iatFails payload4 now = true := by
      simp only [iatFails, hiat4, iatInFuture, jvTruthy]
      simp <;> omega
    simp only [verifyClaims, h1, h2, Bool.false_eq_true, if_false, if_true]

/-! ### Concrete token scenario used by the verifier witnesses -/

def wHdrStr : String := "\x7b\"alg\":\"HS256\"\x7d"

def wHdrJv : Jv := .obj [("alg", .str "HS256")]

def wHdrB64 : String := base64urlEncode (strBytes wHdrStr)

def wSecret : String := "topsecret-abcdefghijklmnopqrstu1"

/-- Stand-in for the platform HMAC-SHA256: any fixed function of the signing
input and key works, since `verifyJwt` only compares its own recomputation. -/
def wHmac (input key : String) : List Nat := strBytes (input ++ "|" ++ key)

def w8P1Str : String := "\x7b\"exp\":1699999970,\"iat\":1700000000\x7d"
def w8P1 : Jv := .obj [("exp", .num 1699999970), ("iat", .num 1700000000)]
def w8P2Str : String := "\x7b\"exp\":1699999969,\"iat\":1700000000\x7d"
def w8P2 : Jv := .obj [("exp", .num 1699999969), ("iat", .num 1700000000)]
def w8P3Str : String := "\x7b\"exp\":1700000300,\"iat\":1700000030\x7d"
def w8P3 : Jv := .obj [("exp", .num 1700000300), ("iat", .num 1700000030)]
def w8P4Str : String := "\x7b\"exp\":1700000300,\"iat\":1700000031\x7d"
def w8P4 : Jv := .obj [("exp", .num 1700000300), ("iat", .num 1700000031)]

def w8Env : Env :=
  { baseEnv with
    props := [("JWT_SECRET", wSecret)]
    hmacSha256 := wHmac
    jsonParse := fun s =>
      if s = wHdrStr then some wHdrJv
      else if s = w8P1Str then some w8P1
      else if s = w8P2Str then some w8P2
      else if s = w8P3Str then some w8P3
      else if s = w8P4Str then some w8P4
      else none }

/-- Payload segment for a given payload text. -/
def wPB (pStr : String) : String := base64urlEncode (strBytes pStr)

/-- Matching signature segment for a given payload text. -/
def wSig (pStr : String) : String :=
  base64urlEncode (wHmac (wHdrB64 ++ "." ++ wPB pStr) wSecret)

/-- Full token for a given payload text. -/
def wTok (pStr : String) : String := wHdrB64 ++ "." ++ wPB pStr ++ "." ++ wSig pStr

/-- Witness for C8: at `now = 1700000000`, the token with `exp = now - 30` is
accepted and the token with `exp = now - 31` is rejected as expired. -/
theorem clock_skew_boundaries_witness :
    verifyJwt w8Env [] 1700000000 (some (.str (wTok w8P1Str))) =
      .ok (successResponse (.obj [("claims", w8P1)]), [])
    ∧ verifyJwt w8Env [] 1700000000 (some (.str (wTok w8P2Str))) =
      .ok (errorResponse "AUTH_FAILED" "Token expired" false, []) := by
  have main := clock_skew_boundaries w8Env [] 1700000000 wHdrB64 wHdrStr wHdrJv wSecret
    (wPB w8P1Str) (wSig w8P1Str) w8P1Str w8P1
    (wPB w8P2Str) (wSig w8P2Str) w8P2Str w8P2
    (wPB w8P3Str) (wSig w8P3Str) w8P3Str w8P3
    (wPB w8P4Str) (wSig w8P4Str) w8P4Str w8P4
    1700000000 1700000300 1700000300
    rfl (by decide) (by decide) rfl rfl rfl
    (by decide) (by decide) (by decide) rfl rfl rfl (by decide) rfl
    (by decide) (by decide) (by decide) rfl rfl (by decide)
    (by decide) (by decide) (by decide) rfl rfl rfl (by decide) rfl
    (by decide) (by decide) (by decide) rfl rfl (by decide) rfl (by decide)
  exact ⟨main.1, main.2.1⟩

/-! ## C10 — zero exp/iat claims skip the temporal checks -/

/-- C10: for a token whose signature verifies and whose claims parse, an `exp`
claim equal to 0 is falsy, so the expiry check is skipped for every current
time, and likewise an `iat` claim equal to 0; the token is accepted at any
`now`. -/
theorem zero_exp_iat_skip_checks (env : Env) (cache : Cache)
    (hB pB sigB hdrStr payStr : String) (header payload : Jv) (secret : String)
    (hsec : getConfig env "JWT_SECRET" = some secret) (hsne : secret ≠ "")
    (hsplit : jsSplit (hB ++ "." ++ pB ++ "." ++ sigB) '.' = [hB, pB, sigB])
    (hhdec : base64urlDecodeToString hB = some hdrStr)
    (hhparse : env.jsonParse hdrStr = some header)
    (halg : jvGet header "alg" = some (.str "HS256"))
    (htyp : jvGet header "typ" = none)
    (hsig : constantTimeCompare (base64urlEncode (env.hmacSha256 (hB ++ "." ++ pB) secret)) sigB
            = true)
    (hpdec : base64urlDecodeToString pB = some payStr)
    (hpparse : env.jsonParse payStr = some payload)
    (hexp : jvGet payload "exp" = some (.num 0))
    (hiat : jvGet payload "iat" = some (.num 0))
    (hjti : jvGet payload "jti" = none) :
    ∀ now : Int,
      verifyJwt env cache now (some (.str (hB ++ "." ++ pB ++ "." ++ sigB))) =
        .ok (successResponse (.obj [("claims", payload)]), cache) := by
  intro now
  rw [verifyJwt_prepared env cache now hB pB sigB hdrStr payStr header payload secret
    hsec hsne hsplit hhdec hhparse halg htyp hsig hpdec hpparse (jvTruthy_of_get hexp)]
  have h1 : expFails payload now = false := by
    simp [expFails, hexp, jvTruthy]
  have h2 : iatFails payload now = false := by
    simp [iatFails, hiat, jvTruthy]
  simp only [verifyClaims, h1, h2, hjti, Bool.false_eq_true, if_false]

def w10PStr : String := "\x7b\"exp\":0,\"iat\":0\x7d"
def w10P : Jv := .obj [("exp", .num 0), ("iat", .num 0)]

def w10Env : Env :=
  { baseEnv with
    props := [("JWT_SECRET", wSecret)]
    hmacSha256 := wHmac
    jsonParse := fun s =>
      if s = wHdrStr then some wHdrJv
      else if s = w10PStr then some w10P
      else none }

/-- Witness for C10: a token with `exp = 0` and `iat = 0` is accepted both
just after the epoch and far in the future. -/
theorem zero_exp_iat_skip_checks_witness :
    verifyJwt w10Env [] 1 (some (.str (wTok w10PStr))) =
      .ok (successResponse (.obj [("claims", w10P)]), [])
    ∧ verifyJwt w10Env [] 99999999999 (some (.str (wTok w10PStr))) =
      .ok (successResponse (.obj [("claims", w10P)]), []) := by
  have main := zero_exp_iat_skip_checks w10Env [] wHdrB64 (wPB w10PStr) (wSig w10PStr)
    wHdrStr w10PStr wHdrJv w10P wSecret
    rfl (by decide) (by decide) (by decide) rfl rfl rfl (by decide) (by decide) rfl
    rfl rfl rfl
  exact ⟨main 1, main 99999999999⟩

/-! ## C4 — replay protection, with a fixed (not lifetime-bounded) TTL -/

theorem iatFails_mono {payload : Jv} {t0 t : Int} (h : iatFails payload t0 = false)
    (ht : t0 ≤ t) : iatFails payload t = false := by
  unfold iatFails at h ⊢
  cases hj : jvGet payload "iat" with
  | none => rfl
  | some v =>
      rw [hj] at h
      cases v with
      | str s => simp [iatInFuture]
      | bool b => simp [iatInFuture]
      | nul => simp [iatInFuture]
      | obj f => simp [iatInFuture]
      | arr a => simp [iatInFuture]
      | num n =>
          by_cases hn : n = 0
          · simp [hn, jvTruthy]
          · have hlt : ¬ (t0 < n - 30) := by
              intro hc
              simp [jvTruthy, iatInFuture, hn, hc] at h
            have : ¬ (t < n - 30) := by omega
            simp [jvTruthy, iatInFuture, hn, this]

/-- C4 (amended): a token accepted at `t0` whose payload bears a truthy `jti`
inserts the replay entry with the constant TTL 300 (not the remaining token
lifetime), and every later verification of the same token before `t0 + 300`
is rejected with `AUTH_FAILED` (as a replay, or as expired if the token has
meanwhile expired). -/
theorem replay_rejected_with_constant_ttl (env : Env) (cache : Cache) (t0 : Int)
    (hB pB sigB hdrStr payStr : String) (header payload jti : Jv) (secret : String)
    (hsec : getConfig env "JWT_SECRET" = some secret) (hsne : secret ≠ "")
    (hsplit : jsSplit (hB ++ "." ++ pB ++ "." ++ sigB) '.' = [hB, pB, sigB])
    (hhdec : base64urlDecodeToString hB = some hdrStr)
    (hhparse : env.jsonParse hdrStr = some header)
    (halg : jvGet header "alg" = some (.str "HS256"))
    (htyp : jvGet header "typ" = none)
    (hsig : constantTimeCompare (base64urlEncode (env.hmacSha256 (hB ++ "." ++ pB) secret)) sigB
            = true)
    (hpdec : base64urlDecodeToString pB = some payStr)
    (hpparse : env.jsonParse payStr = some payload)
    (hptr : jvTruthy payload = true)
    (hexp0 : expFails payload t0 = false) (hiat0 : iatFails payload t0 = false)
    (hjti : jvGet payload "jti" = some jti) (hjtv : jvTruthy jti = true)
    (hfresh : cacheGet cache t0 ("jti_" ++ jvToString jti) = false) :
    verifyJwt env cache t0 (some (.str (hB ++ "." ++ pB ++ "." ++ sigB))) =
      .ok (successResponse (.obj [("claims", payload)]),
           cachePut cache ("jti_" ++ jvToString jti) t0 300)
    ∧ ∀ t : Int, t0 ≤ t → t < t0 + 300 →
        verifyJwt env (cachePut cache ("jti_" ++ jvToString jti) t0 300) t
            (some (.str (hB ++ "." ++ pB ++ "." ++ sigB))) =
          .ok (errorResponse "AUTH_FAILED"
                 (if expFails payload t then "Token expired"
                  else "Token already used (replay detected)") false,
               cachePut cache ("jti_" ++ jvToString jti) t0 300) := by
  constructor
  · rw [verifyJwt_prepared env cache t0 hB pB sigB hdrStr payStr header payload secret
      hsec hsne hsplit hhdec hhparse halg htyp hsig hpdec hpparse hptr]
    simp only [verifyClaims, hexp0, hiat0, hjti, hjtv, hfresh, Bool.false_eq_true, if_false,
      if_true]
  · intro t ht1 ht2
    rw [verifyJwt_prepared env (cachePut cache ("jti_" ++ jvToString jti) t0 300) t hB pB sigB
      hdrStr payStr header payload secret
      hsec hsne hsplit hhdec hhparse halg htyp hsig hpdec hpparse hptr]
    by_cases hef : expFails payload t = true
    · simp only [verifyClaims, hef, if_true]
    · have hef' : expFails payload t = false := by
        cases h : expFails payload t
        · rfl
        · exact absurd h hef
      have hif : iatFails payload t = false := iatFails_mono hiat0 ht1
      have hcg : cacheGet (cachePut cache ("jti_" ++ jvToString jti) t0 300) t
          ("jti_" ++ jvToString jti) = true := by
        simp [cacheGet, cachePut, List.any_cons]
        exact Or.inl ht2
      simp only [verifyClaims, hef', hif, hjti, hjtv, hcg, Bool.false_eq_true, if_false, if_true]

def w4PStr : String := "\x7b\"exp\":1700000300,\"iat\":1700000000,\"jti\":\"u2\"\x7d"
def w4P : Jv :=
  .obj [("exp", .num 1700000300), ("iat", .num 1700000000), ("jti", .str "u2")]

def w4Env : Env :=
  { baseEnv with
    props := [("JWT_SECRET", wSecret)]
    hmacSha256 := wHmac
    jsonParse := fun s =>
      if s = wHdrStr then some wHdrJv
      else if s = w4PStr then some w4P
      else none }

/-- Witness for C4: a token bearing `jti = "u2"` accepted at `t0 = 1700000000`
inserts `("jti_u2", t0, 300)`, and replaying the same token 5 seconds later is
rejected as a replay. -/
theorem replay_rejected_witness :
    verifyJwt w4Env [] 1700000000 (some (.str (wTok w4PStr))) =
      .ok (successResponse (.obj [("claims", w4P)]), [("jti_u2", 1700000000, 300)])
    ∧ verifyJwt w4Env [("jti_u2", 1700000000, 300)] 1700000005 (some (.str (wTok w4PStr))) =
      .ok (errorResponse "AUTH_FAILED" "Token already used (replay detected)" false,
           [("jti_u2", 1700000000, 300)]) := by
  have main := replay_rejected_with_constant_ttl w4Env [] 1700000000 wHdrB64 (wPB w4PStr)
    (wSig w4PStr) wHdrStr w4PStr wHdrJv w4P (.str "u2") wSecret
    rfl (by decide) (by decide) (by decide) rfl rfl rfl (by decide) (by decide) rfl rfl
    (by decide) (by decide) rfl (by decide) (by decide)
  have h2 := main.2 1700000005 (by decide) (by decide)
  rw [show expFails w4P 1700000005 = false from by decide] at h2
  exact ⟨main.1, h2⟩

def c4PStr : String := "\x7b\"exp\":1010,\"jti\":\"u7\"\x7d"
def c4P : Jv := .obj [("exp", .num 1010), ("jti", .str "u7")]

def c4Env : Env :=
  { baseEnv with
    props := [("JWT_SECRET", wSecret)]
    hmacSha256 := wHmac
    jsonParse := fun s =>
      if s = wHdrStr then some wHdrJv
      else if s = c4PStr then some c4P
      else none }

/-- Counterexample for C4 as stated: a token accepted at `t0 = 1000` with
`exp = 1010` has a remaining lifetime of 10 seconds, so the claimed TTL
(remaining lifetime bounded above by 300) is 10; the code inserts the replay
entry with TTL 300. -/
theorem replay_ttl_counterexample :
    verifyJwt c4Env [] 1000 (some (.str (wTok c4PStr))) =
      .ok (successResponse (.obj [("claims", c4P)]), [("jti_u7", 1000, 300)])
    ∧ min ((1010 : Int) - 1000) 300 = 10
    ∧ (300 : Int) ≠ 10 := by
  refine ⟨rfl, by norm_num, by norm_num⟩

/-! ## C5 — dispatcher exception mapping -/

/-- C5 (amended): an exception thrown by a registered non-gmail handler maps
to `QUOTA_EXCEEDED` (retryable) when its truthy message contains the
substring `'quota'` under CASE-SENSITIVE comparison, and otherwise to
`SERVICE_ERROR` (retryable) with message `service.action failed: <cause>`. -/
theorem route_trap_maps_exceptions (env : Env) (s a : String) (params : Jv) (m : String)
    (hs : s ≠ "") (ha : a ≠ "")
    (hreg : otherServiceNames.contains (strToLower s) = true)
    (hthrow : env.services (strToLower s) a (if jvTruthy params then params else .obj []) =
      .error m) :
    routeRequest env (.str s) (.str a) params =
      (if m ≠ "" ∧ strContains m "quota" then
         errorResponse "QUOTA_EXCEEDED" ("API quota exceeded: " ++ m) true
       else errorResponse "SERVICE_ERROR" (s ++ "." ++ a ++ " failed: " ++ m) true, []) := by
  have hng : ¬ strToLower s = "gmail" := by
    intro h
    rw [h] at hreg
    exact absurd hreg (by decide)
  unfold routeRequest
  simp only [if_neg hs, if_neg ha, if_neg hng, hreg, if_true, hthrow, routeCatch]

def w5Env : Env :=
  { baseEnv with
    services := fun svc act _ =>
      if svc = "drive" ∧ act = "list" then .error "Rate limit quota reached"
      else .error "boom" }

/-- Witness for C5: a handler throwing `"Rate limit quota reached"` (which
contains the lowercase `quota`) maps to `QUOTA_EXCEEDED`. -/
theorem route_trap_maps_exceptions_witness :
    routeRequest w5Env (.str "drive") (.str "list") (.obj []) =
      (errorResponse "QUOTA_EXCEEDED" "API quota exceeded: Rate limit quota reached" true, []) := by
  have h := route_trap_maps_exceptions w5Env "drive" "list" (.obj [])
    "Rate limit quota reached" (by decide) (by decide) (by decide) rfl
  rw [if_pos ⟨by decide, by decide⟩] at h
  exact h

def c5Env : Env :=
  { baseEnv with
    services := fun svc _ _ =>
      if svc = "drive" then .error "Quota exceeded" else .error "boom" }

/-- Counterexample for C5 as stated: an exception with message
`"Quota exceeded"` contains `quota` case-insensitively, so the claim requires
`QUOTA_EXCEEDED`; the code matches case-sensitively with `indexOf` and
returns `SERVICE_ERROR`. -/
theorem quota_mapping_counterexample :
    routeRequest c5Env (.str "drive") (.str "list") (.obj []) =
      (errorResponse "SERVICE_ERROR" "drive.list failed: Quota exceeded" true, [])
    ∧ strContains (strToLower "Quota exceeded") (strToLower "quota") = true
    ∧ "SERVICE_ERROR" ≠ "QUOTA_EXCEEDED" :=
  ⟨rfl, by decide, by decide⟩

/-! ## C1 — mail content-filter on the read paths -/

/-- C1 (amended): a gmail `get`/`read` request for a security-sensitive
thread returns a `FORBIDDEN` error envelope (no thread content) and writes
only the security-intercept audit row. -/
theorem gmail_get_blocks_sensitive (env : Env) (action : String) (params tidJ : Jv)
    (thread : GThread)
    (ha : action = "get" ∨ action = "read")
    (hp : jvGet params "threadId" = some tidJ)
    (hm : jvMissing (some tidJ) = false)
    (hlook : env.threadById (jvToString tidJ) = some thread)
    (hsec : isSecurityThread env thread = true) :
    handleGmail env action params =
      .ok (errorResponse "FORBIDDEN" "Access to this thread is restricted by security policy"
             false,
           logSecurityIntercept env "get" ("Blocked access to thread " ++ jvToString tidJ)) := by
  have hg : gmailGet env params =
      .ok (errorResponse "FORBIDDEN" "Access to this thread is restricted by security policy"
             false,
           logSecurityIntercept env "get" ("Blocked access to thread " ++ jvToString tidJ)) := by
    unfold gmailGet validateParams
    simp only [hp, hm, Bool.false_eq_true, if_false, Option.getD_some, hlook, hsec, if_true]
    rfl
  rcases ha with h | h <;> subst h
  · rw [show handleGmail env "get" params = gmailGet env params from rfl]
    exact hg
  · rw [show handleGmail env "read" params = gmailGet env params from rfl]
    exact hg

def w1Msg : GMessage :=
  { id := "m1", subject := "Security alert", sender := "no-reply@accounts.google.com",
    recipient := "me@example.com", cc := "", bcc := "", replyTo := "",
    dateIso := "2026-01-01T00:00:00.000Z", plainBody := "We blocked a sign-in attempt",
    htmlBody := "", unread := true, starred := false, attachments := [] }

def w1Thread : GThread := { id := "t1", messages := [w1Msg], unread := true, labels := [] }

def w1Env : Env :=
  { baseEnv with
    props := [("LOG_SHEET_ID", "sheet-1")]
    threadById := fun tid => if tid = "t1" then some w1Thread else none }

/-- Witness for C1: reading a thread whose only message comes from a default
blocked sender yields `FORBIDDEN` plus one `BLOCKED` intercept row. -/
theorem gmail_get_blocks_sensitive_witness :
    handleGmail w1Env "read" (.obj [("threadId", .str "t1")]) =
      .ok (errorResponse "FORBIDDEN" "Access to this thread is restricted by security policy"
             false,
           [{ ts := 0, requestId := "req-11111111", ip := "internal", service := "gmail",
              action := "security_intercept:get", status := "BLOCKED", durationMs := 0,
              errorMsg := "Blocked access to thread t1" }]) := by
  have h := gmail_get_blocks_sensitive w1Env "read" (.obj [("threadId", .str "t1")])
    (.str "t1") w1Thread (Or.inr rfl) rfl (by decide) rfl (by decide)
  exact h

def c1Msg : GMessage :=
  { id := "m9", subject := "Your backup codes", sender := "no-reply@accounts.google.com",
    recipient := "me@example.com", cc := "", bcc := "", replyTo := "",
    dateIso := "2026-01-01T00:00:00.000Z", plainBody := "Attached are your codes",
    htmlBody := "", unread := true, starred := false,
    attachments := [{ name := "backup-codes.txt", contentType := "text/plain", size := 2,
                      bytes := [104, 105] }] }

def c1Env : Env :=
  { baseEnv with
    props := [("LOG_SHEET_ID", "sheet-1")]
    messageById := fun mid => if mid = "m9" then some c1Msg else none }

/-- Counterexample for C1 as stated: the message is security-sensitive (its
sender is on the default blocked list), yet `attachments.download` by
`messageId` performs no security check and returns the attachment content
(base64 `"aGk="`) in a success envelope — not a `FORBIDDEN` error. -/
theorem attachments_bypass_counterexample :
    isSecurityEmail c1Env c1Msg = true
    ∧ handleGmail c1Env "attachments.download" (.obj [("messageId", .str "m9")]) =
        .ok (successResponse (.obj
              [("attachments", .arr
                 [.obj [("index", .num 0), ("name", .str "backup-codes.txt"),
                        ("contentType", .str "text/plain"), ("size", .num 2),
                        ("content", .str "aGk=")]])]), []) :=
  ⟨by decide, rfl⟩

/-! ## C2 — no-leak audit invariant -/

def c2PayloadStr : String := "\x7b\x7d"

def c2Body : String :=
  "\x7b\"jwt\":\"" ++ wTok c2PayloadStr ++
    "\",\"service\":\"gmail\",\"action\":\"get\",\"params\":\x7b\"threadId\":\"zz-secret-zz\"\x7d\x7d"

def c2BodyJv : Jv :=
  .obj [("jwt", .str (wTok c2PayloadStr)), ("service", .str "gmail"), ("action", .str "get"),
        ("params", .obj [("threadId", .str "zz-secret-zz")])]

def c2Env : Env :=
  { baseEnv with
    props := [("JWT_SECRET", wSecret), ("LOG_SHEET_ID", "sheet-1")]
    hmacSha256 := wHmac
    jsonParse := fun s =>
      if s = c2Body then some c2BodyJv
      else if s = wHdrStr then some wHdrJv
      else if s = c2PayloadStr then some (.obj [])
      else none }

/-- C2 evaluated at the failing input: a validly authenticated
`gmail.get` request with `params.threadId = "zz-secret-zz"` for a thread that
does not exist.  doPost writes exactly one audit row, and its `errorMsg`
field (`Thread not found: zz-secret-zz`) contains the request's params value
`zz-secret-zz` as a substring — contradicting the no-leak claim (and the
Logger.gs header comment that request params are never logged). -/
theorem audit_leaks_params_value :
    doPost c2Env (some c2Body) =
      (errorResponse "NOT_FOUND" "Thread not found: zz-secret-zz" false,
       [{ ts := 1000, requestId := "req-00000000", ip := "unknown", service := "gmail",
          action := "get", status := "ERROR", durationMs := 1000,
          errorMsg := "Thread not found: zz-secret-zz" }])
    ∧ strContains "Thread not found: zz-secret-zz" "zz-secret-zz" = true
    ∧ jvGet (jvOr (jvGet c2BodyJv "params") (.obj [])) "threadId" = some (.str "zz-secret-zz") :=
  ⟨rfl, by decide, rfl⟩

/-! ## C7 — the init pseudo-service and the audit log -/

/-- C7 (amended): every parsed `_init`/`setSecret` request short-circuits
before JWT verification and the IP check and returns one of the four init
envelopes — but, contrary to the claim, it produces NO audit entry on any
branch. -/
theorem init_requests_skip_audit (env : Env) (deployTs : Int) (contents : Option String)
    (s : String) (body : Jv)
    (hc : contents = some s) (hs : ¬ s = "")
    (hp : env.jsonParse s = some body) (ht : jvTruthy body = true)
    (hsvc : jvGet body "service" = some (.str "_init"))
    (hact : jvGet body "action" = some (.str "setSecret")) :
    (doPostInit env deployTs contents).2 = []
    ∧ ((doPostInit env deployTs contents).1 =
         errorResponse "INIT_REJECTED" "Already configured" false
       ∨ (doPostInit env deployTs contents).1 =
         errorResponse "INIT_EXPIRED" "Init window has expired" false
       ∨ (doPostInit env deployTs contents).1 =
         errorResponse "INVALID_REQUEST" "Secret must be at least 32 characters" false
       ∨ (doPostInit env deployTs contents).1 =
         successResponse (.obj [("message", .str "JWT_SECRET configured successfully")])) := by
  subst hc
  have hred : doPostInit env deployTs (some s) =
      (if isConfigured env then
         (errorResponse "INIT_REJECTED" "Already configured" false, ([] : List AuditEntry))
       else if 300000 < env.clock 1 - deployTs then
         (errorResponse "INIT_EXPIRED" "Init window has expired" false, [])
       else if initSecretBad body then
         (errorResponse "INVALID_REQUEST" "Secret must be at least 32 characters" false, [])
       else
         (successResponse (.obj [("message", .str "JWT_SECRET configured successfully")]), [])) := by
    unfold doPostInit
    simp only [if_neg hs, hp, ht, hsvc, hact]
    rfl
  rw [hred]
  by_cases h1 : isConfigured env = true
  · simp [h1]
  · have h1f : isConfigured env = false := by
      revert h1
      cases isConfigured env <;> simp
    by_cases h2 : (300000 : Int) < env.clock 1 - deployTs
    · simp [h1f, h2]
    · by_cases h3 : initSecretBad body = true
      · simp [h1f, h2, h3]
      · have h3f : initSecretBad body = false := by
          revert h3
          cases initSecretBad body <;> simp
        simp [h1f, h2, h3f]

def w7Body : String :=
  "\x7b\"service\":\"_init\",\"action\":\"setSecret\",\"params\":\x7b\"secret\":\"abcdefghijklmnopqrstuvwxyz123456\"\x7d\x7d"

def w7BodyJv : Jv :=
  .obj [("service", .str "_init"), ("action", .str "setSecret"),
        ("params", .obj [("secret", .str "abcdefghijklmnopqrstuvwxyz123456")])]

def w7Env : Env :=
  { baseEnv with
    props := [("LOG_SHEET_ID", "sheet-1")]
    jsonParse := fun s => if s = w7Body then some w7BodyJv else none }

/-- Witness for C7: a concrete init request writes no audit entry. -/
theorem init_requests_skip_audit_witness :
    (doPostInit w7Env 0 (some w7Body)).2 = [] :=
  (init_requests_skip_audit w7Env 0 (some w7Body) w7Body w7BodyJv
    rfl (by decide) rfl (by decide) rfl rfl).1

def c7Env : Env :=
  { baseEnv with
    props := [("JWT_SECRET", wSecret), ("LOG_SHEET_ID", "sheet-1")]
    jsonParse := fun s => if s = w7Body then some w7BodyJv else none }

/-- Counterexample for C7 as stated: an `_init.setSecret` request against an
already-configured proxy is rejected with `INIT_REJECTED` and produces ZERO
audit entries, even though logging is fully enabled — the claim says the init
path still produces an audit entry. -/
theorem init_audit_counterexample :
    doPostInit c7Env 0 (some w7Body) =
      (errorResponse "INIT_REJECTED" "Already configured" false, [])
    ∧ getConfig c7Env "LOG_ENABLED" = some "true"
    ∧ getConfig c7Env "LOG_SHEET_ID" = some "sheet-1"
    ∧ c7Env.lockOk = true :=
  ⟨rfl, rfl, rfl, rfl⟩

/-! ## C6 — audit entries per request -/

theorem logRequest_mem {env : Env} {now : Int} {rid ip svc act st : String} {dur : Int}
    {msg : String} {e : AuditEntry} (h : e ∈ logRequest env now rid ip svc act st dur msg) :
    e.status = st ∧ e.durationMs = dur := by
  unfold logRequest at h
  split at h
  · simp at h
  · split at h
    · simp at h
    · split at h
      · simp at h
      · split at h
        · simp at h
        · rw [List.mem_singleton] at h
          subst h
          exact ⟨rfl, rfl⟩

theorem intercept_mem {env : Env} {act det : String} {e : AuditEntry}
    (h : e ∈ logSecurityIntercept env act det) :
    e.status = "BLOCKED" ∧ e.durationMs = 0 := by
  unfold logSecurityIntercept at h
  exact logRequest_mem h

theorem gmailGet_rows {env : Env} {p : Jv} {r : Envelope × List AuditEntry}
    (h : gmailGet env p = .ok r) {e : AuditEntry} (he : e ∈ r.2) :
    e.status = "BLOCKED" ∧ e.durationMs = 0 := by
  unfold gmailGet at h
  dsimp only at h
  split at h
  · cases h
    simp at he
  · split at h
    · cases h
      simp at he
    · split at h
      · cases h
        exact intercept_mem he
      · split at h
        · exact Except.noConfusion h
        · cases h
          simp at he

theorem gmailAttachments_rows {env : Env} {p : Jv} {r : Envelope × List AuditEntry}
    (h : gmailAttachmentsDownload env p = .ok r) {e : AuditEntry} (he : e ∈ r.2) :
    e.status = "BLOCKED" ∧ e.durationMs = 0 := by
  unfold gmailAttachmentsDownload at h
  dsimp only at h
  split at h
  · cases h
    simp at he
  · split at h
    · cases h
      simp at he
    · split at h
      · split at h
        · exact Except.noConfusion h
        · split at h
          · cases h
            simp at he
          · split at h
            · exact Except.noConfusion h
            · cases h
              simp at he
      · cases h
        simp at he

theorem gmailSearchLoop_rows {env : Env} {ib : Bool} {e : AuditEntry} :
    ∀ {ts : List GThread} {res : List Jv × List AuditEntry},
      gmailSearchLoop env ib ts = .ok res → e ∈ res.2 →
      e.status = "BLOCKED" ∧ e.durationMs = 0 := by
  intro ts
  induction ts with
  | nil =>
      intro res h he
      cases h
      simp at he
  | cons t rest ih =>
      intro res h he
      unfold gmailSearchLoop at h
      split at h
      · split at h
        · rename_i items rows heq
          cases h
          rcases List.mem_append.mp he with h1 | h1
          · exact intercept_mem h1
          · exact ih heq h1
        · exact Except.noConfusion h
      · split at h
        · split at h
          · rename_i items rows heq
            cases h
            exact ih heq he
          · exact Except.noConfusion h
        · exact Except.noConfusion h

theorem gmailSearch_rows {env : Env} {p : Jv} {r : Envelope × List AuditEntry}
    (h : gmailSearch env p = .ok r) {e : AuditEntry} (he : e ∈ r.2) :
    e.status = "BLOCKED" ∧ e.durationMs = 0 := by
  unfold gmailSearch at h
  dsimp only at h
  split at h
  · cases h
    exact gmailSearchLoop_rows (by assumption) he
  · exact Except.noConfusion h

theorem map_pair_rows {X : Except String Envelope} {r : Envelope × List AuditEntry}
    (h : X.map (fun e => (e, ([] : List AuditEntry))) = .ok r) : r.2 = [] := by
  cases X with
  | error m => exact Except.noConfusion h
  | ok v =>
      cases h
      rfl

theorem handleGmail_rows {env : Env} {a : String} {p : Jv} {r : Envelope × List AuditEntry}
    (h : handleGmail env a p = .ok r) {e : AuditEntry} (he : e ∈ r.2) :
    e.status = "BLOCKED" ∧ e.durationMs = 0 := by
  unfold handleGmail at h
  split at h
  · exact gmailSearch_rows h he
  · exact gmailGet_rows h he
  · exact gmailGet_rows h he
  · exact gmailAttachments_rows h he
  all_goals
    first
      | (rw [map_pair_rows h] at he
         simp at he)
      | (cases h
         simp at he)

theorem routeRequest_rows {env : Env} {service action params : Jv} {e : AuditEntry}
    (he : e ∈ (routeRequest env service action params).2) :
    e.status = "BLOCKED" ∧ e.durationMs = 0 := by
  unfold routeRequest at he
  dsimp only at he
  split at he
  · split at he
    · simp at he
    · split at he
      · split at he
        · simp at he
        · split at he
          · split at he
            · exact handleGmail_rows (by assumption) he
            · simp at he
          · split at he
            · split at he
              · simp at he
              · simp at he
            · simp at he
      · simp at he
  · simp at he

theorem logRequest_eq {env : Env} {sid : String}
    (hlog : getConfig env "LOG_ENABLED" = some "true")
    (hsheet : getConfig env "LOG_SHEET_ID" = some sid) (hsid : ¬ sid = "")
    (hlock : env.lockOk = true)
    (now : Int) (rid ip svc act st : String) (dur : Int) (msg : String) :
    logRequest env now rid ip svc act st dur msg =
      [{ ts := now, requestId := rid, ip := if ip = "" then "unknown" else ip,
         service := svc, action := act, status := st, durationMs := dur, errorMsg := msg }] := by
  unfold logRequest
  rw [if_neg (by rw [hlog]; simp), hsheet]
  dsimp only
  rw [if_neg hsid, hlock]
  rfl

/-- C6 (amended): every request that passes body parsing — with logging
enabled, a sheet configured, the lock available, and a monotone clock —
produces AT LEAST one audit entry, and every entry written has a status in
{OK, AUTH_FAILED, IP_BLOCKED, BLOCKED, ERROR, TIMEOUT} and a non-negative
`durationMs`.  (Requests rejected at body parsing produce none — see the
counterexample — and the late timeout check can add a second, `TIMEOUT`,
entry.) -/
theorem doPost_audit_rows (env : Env) (contents : Option String) (s sid : String) (body : Jv)
    (hc : contents = some s) (hs : ¬ s = "")
    (hp : env.jsonParse s = some body) (ht : jvTruthy body = true)
    (hlog : getConfig env "LOG_ENABLED" = some "true")
    (hsheet : getConfig env "LOG_SHEET_ID" = some sid) (hsid : ¬ sid = "")
    (hlock : env.lockOk = true)
    (hmono : ∀ i j : Nat, i ≤ j → env.clock i ≤ env.clock j) :
    1 ≤ (doPost env contents).2.length
    ∧ ∀ e ∈ (doPost env contents).2,
        e.status ∈ ["OK", "AUTH_FAILED", "IP_BLOCKED", "BLOCKED", "ERROR", "TIMEOUT"]
        ∧ 0 ≤ e.durationMs := by
  subst hc
  have h01 : (0 : Int) ≤ env.clock 1 - env.clock 0 := by
    have := hmono 0 1 (by omega)
    omega
  have h02 : (0 : Int) ≤ env.clock 2 - env.clock 0 := by
    have := hmono 0 2 (by omega)
    omega
  have hd : doPost env (some s) = doPostPipeline env (env.clock 0) body := by
    unfold doPost
    dsimp only
    rw [if_neg hs, hp]
    dsimp only
    rw [ht]
    rfl
  rw [hd]
  unfold doPostPipeline
  dsimp only
  cases hv : verifyJwt env env.cache env.authNow (jvGet body "jwt") with
  | error m =>
      dsimp only
      rw [logRequest_eq hlog hsheet hsid hlock]
      refine ⟨by simp, ?_⟩
      intro e he
      rw [List.mem_singleton] at he
      subst he
      exact ⟨by simp, h01⟩
  | ok pr =>
      obtain ⟨authR, cache2⟩ := pr
      dsimp only
      by_cases hauth : authR.isOk = true
      · rw [hauth]
        simp only [Bool.not_true, Bool.false_eq_true, if_false]
        by_cases hip : (checkIp env (match jvGet body "clientIp" with
            | some v => if jvTruthy v then jvToString v else "unknown"
            | none => "unknown")).isOk = true
        · rw [hip]
          simp only [Bool.not_true, Bool.false_eq_true, if_false]
          rw [logRequest_eq hlog hsheet hsid hlock, logRequest_eq hlog hsheet hsid hlock]
          by_cases hto : (330000 : Int) < env.clock 2 - env.clock 0
          · rw [if_pos hto]
            constructor
            · simp
            · intro e he
              rcases List.mem_append.mp he with h1 | h1
              · rcases List.mem_append.mp h1 with h2 | h2
                · have := routeRequest_rows h2
                  exact ⟨by simp [this.1], by rw [this.2]⟩
                · rw [List.mem_singleton] at h2
                  subst h2
                  refine ⟨?_, h01⟩
                  by_cases hok : (routeRequest env (jvOr (jvGet body "service") (.str ""))
                      (jvOr (jvGet body "action") (.str ""))
                      (jvOr (jvGet body "params") (.obj []))).1.isOk = true
                  · simp [hok]
                  · simp [hok]
              · rw [List.mem_singleton] at h1
                subst h1
                exact ⟨by simp, h02⟩
          · rw [if_neg hto]
            constructor
            · simp
            · intro e he
              rcases List.mem_append.mp he with h1 | h1
              · have := routeRequest_rows h1
                exact ⟨by simp [this.1], by rw [this.2]⟩
              · rw [List.mem_singleton] at h1
                subst h1
                refine ⟨?_, h01⟩
                by_cases hok : (routeRequest env (jvOr (jvGet body "service") (.str ""))
                    (jvOr (jvGet body "action") (.str ""))
                    (jvOr (jvGet body "params") (.obj []))).1.isOk = true
                · simp [hok]
                · simp [hok]
        · have hipf : (checkIp env (match jvGet body "clientIp" with
              | some v => if jvTruthy v then jvToString v else "unknown"
              | none => "unknown")).isOk = false := by
            revert hip
            cases (checkIp env _).isOk <;> simp
          rw [hipf]
          simp only [Bool.not_false, eq_self_iff_true, if_true]
          rw [logRequest_eq hlog hsheet hsid hlock]
          refine ⟨by simp, ?_⟩
          intro e he
          rw [List.mem_singleton] at he
          subst he
          exact ⟨by simp, h01⟩
      · have hauthf : authR.isOk = false := by
          revert hauth
          cases authR.isOk <;> simp
        rw [hauthf]
        simp only [Bool.not_false, eq_self_iff_true, if_true]
        rw [logRequest_eq hlog hsheet hsid hlock]
        refine ⟨by simp, ?_⟩
        intro e he
        rw [List.mem_singleton] at he
        subst he
        exact ⟨by simp, h01⟩

def w6Env : Env :=
  { baseEnv with
    props := [("LOG_SHEET_ID", "sheet-1")]
    jsonParse := fun s =>
      if s = "\x7b\"service\":\"x\"\x7d" then some (.obj [("service", .str "x")]) else none }

/-- Witness for C6: a concrete parsed request (here one that fails
authentication, as the secret is unconfigured) writes at least one entry. -/
theorem doPost_audit_rows_witness :
    1 ≤ (doPost w6Env (some "\x7b\"service\":\"x\"\x7d")).2.length :=
  (doPost_audit_rows w6Env (some "\x7b\"service\":\"x\"\x7d") "\x7b\"service\":\"x\"\x7d" "sheet-1"
    (.obj [("service", .str "x")]) rfl (by decide) rfl (by decide) rfl rfl (by decide) rfl
    (fun i j hij => by simp only [w6Env, baseEnv]; omega)).1

def c6Env : Env := { baseEnv with props := [("LOG_SHEET_ID", "sheet-1")] }

/-- Counterexample for C6 as stated: a request with an empty body is rejected
with `INVALID_REQUEST` and produces ZERO audit entries, even though logging is
fully enabled — not "exactly one". -/
theorem no_audit_on_unparsed_body_counterexample :
    doPost c6Env none = (errorResponse "INVALID_REQUEST" "Empty request body" false, [])
    ∧ getConfig c6Env "LOG_ENABLED" = some "true"
    ∧ getConfig c6Env "LOG_SHEET_ID" = some "sheet-1"
    ∧ c6Env.lockOk = true :=
  ⟨rfl, rfl, rfl, rfl⟩

end GProxy
